import Mathlib

/-!
Shallow embedding of the `rustc_version` crate's verbose-version-banner
parser (`src/lib.rs`), together with theorems checking the crate's
specification against it.

Modelling conventions:
* Rust `&str` values are Lean `String`s; byte-level operations on ASCII
  prefixes coincide with the character-level operations used here.
* Rust `u64` is `Nat`; `u64::from_str` overflow is modelled by an explicit
  bound check against `u64Max`.
* Rust slice indexing `out[i]` panics when out of bounds; this is modelled
  by the `Failure.panicked` outcome, kept distinct from returned `Error`s.
* The `semver` crate is an external collaborator; the banner parser is
  parameterised by the supplied semantic-version parse capability
  `psv : String → Option Version` (`none` models a `SemVerError`).
-/

namespace RustcVersion

/-- Pre-release identifier, as in the `semver` crate's `Identifier`. -/
inductive Identifier where
  | alphaNumeric (s : String)
  | numeric (n : Nat)
deriving DecidableEq, Repr

/-- Release channel of the compiler (`Channel` in `src/lib.rs`). -/
inductive Channel where
  | Dev
  | Nightly
  | Beta
  | Stable
deriving DecidableEq, Repr

/-- LLVM version (`LLVMVersion` in `src/lib.rs`): major and minor, `u64` each. -/
structure LLVMVersion where
  major : Nat
  minor : Nat
deriving DecidableEq, Repr

/-- A parsed semantic version, the part of `semver::Version` this crate uses. -/
structure Version where
  major : Nat
  minor : Nat
  patch : Nat
  pre : List Identifier
deriving DecidableEq, Repr

/-- `VersionMeta` from `src/lib.rs`. -/
structure VersionMeta where
  semver : Version
  commit_hash : Option String
  commit_date : Option String
  build_date : Option String
  channel : Channel
  host : String
  short_version_string : String
  llvm_version : Option LLVMVersion
deriving DecidableEq, Repr

/-- The error kinds of `src/errors.rs` reachable from `version_meta_for`. -/
inductive Error where
  | UnexpectedVersionFormat
  | SemVerError
  | UnknownPreReleaseTag (i : Identifier)
deriving DecidableEq, Repr

/-- Outcome of a call that may also panic (Rust index out of bounds). -/
inductive Failure where
  | err (e : Error)
  | panicked
deriving DecidableEq, Repr

/-- `u64::MAX`. -/
def u64Max : Nat := 18446744073709551615

/-- Rust `str::starts_with(prefix)`. On valid UTF-8, byte-prefix and
character-prefix agree. -/
def strSW (s p : String) : Bool := p.data.isPrefixOf s.data

/-- Rust byte slicing `&line[n..]` where the first `n` bytes are the ASCII
prefix just matched: dropping `n` characters. -/
def strDropN (s : String) (n : Nat) : String := ⟨s.data.drop n⟩

/-- The prefix-checking helper from `version_meta_for` (src/lib.rs lines 178-184). -/
def expectPrefix (line p : String) : Except Error String :=
  if strSW line p then .ok (strDropN line p.length)
  else .error .UnexpectedVersionFormat

/-- Numeric value of a digit string, as `u64::from_str` computes it
(before the overflow check). -/
def componentVal (c : String) : Nat :=
  c.data.foldl (fun acc ch => acc * 10 + (ch.toNat - 48)) 0

/-- `parse_part` from `version_meta_for` (src/lib.rs lines 226-237):
accept the literal `"0"`; otherwise reject empty strings, leading zeros and
non-digit characters; finally `part.parse::<u64>()`, whose only remaining
failure mode is overflow. -/
def parse_part (part : String) : Except Error Nat :=
  if part = "0" then
    .ok 0
  else if part.data.isEmpty || part.data.head? == some '0'
      || part.data.any (fun ch => !ch.isDigit) then
    .error .UnexpectedVersionFormat
  else
    let n := componentVal part
    if n ≤ u64Max then .ok n else .error .UnexpectedVersionFormat

/-- Rust `str::split(sep)` on the character list: always at least one
(possibly empty) piece, one extra piece per separator occurrence. -/
def splitChar (sep : Char) : List Char → List (List Char)
  | [] => [[]]
  | c :: rest =>
    if c = sep then [] :: splitChar sep rest
    else
      match splitChar sep rest with
      | [] => [[c]]
      | p :: ps => (c :: p) :: ps

/-- Rust `llvm_version.split('.')` as a list of `String` pieces. -/
def splitOnDot (s : String) : List String :=
  (splitChar '.' s.data).map (fun cs => ⟨cs⟩)

/-- The LLVM-version token grammar of `version_meta_for`
(src/lib.rs lines 239-255): major from the first piece; a second piece, if
present, is the minor, with at most two pieces allowed and minor forced to
zero from major 4 on; with no second piece, minor defaults to 0 but majors
below 4 are rejected. -/
def parse_llvm_version (s : String) : Except Error LLVMVersion :=
  match splitOnDot s with
  | [] => .error .UnexpectedVersionFormat
  | major_s :: rest =>
    match parse_part major_s with
    | .error e => .error e
    | .ok major =>
      match rest with
      | [] =>
        if major < 4 then .error .UnexpectedVersionFormat
        else .ok ⟨major, 0⟩
      | minor_s :: rest2 =>
        match parse_part minor_s with
        | .error e => .error e
        | .ok minor =>
          if rest2 ≠ [] then .error .UnexpectedVersionFormat
          else if major ≥ 4 ∧ minor ≠ 0 then .error .UnexpectedVersionFormat
          else .ok ⟨major, minor⟩

instance {ε α : Type} [DecidableEq ε] [DecidableEq α] : DecidableEq (Except ε α) :=
  fun a b =>
    match a, b with
    | .ok x, .ok y => decidable_of_iff (x = y) (by simp)
    | .error x, .error y => decidable_of_iff (x = y) (by simp)
    | .ok _, .error _ => isFalse (by simp)
    | .error _, .ok _ => isFalse (by simp)

/-- Channel derivation from the pre-release identifiers of the parsed
release version (src/lib.rs lines 213-222). -/
def channel_for (pre : List Identifier) : Except Error Channel :=
  match pre with
  | [] => .ok .Stable
  | x :: _ =>
    match x with
    | .alphaNumeric s =>
      if s = "dev" then .ok .Dev
      else if s = "beta" then .ok .Beta
      else if s = "nightly" then .ok .Nightly
      else .error (.UnknownPreReleaseTag (.alphaNumeric s))
    | .numeric n => .error (.UnknownPreReleaseTag (.numeric n))

/-- Lift a returned `Error` into the panic-aware outcome type. -/
def liftE {α : Type} : Except Error α → Except Failure α
  | .ok a => .ok a
  | .error e => .error (.err e)

/-- Sequencing of panic-aware computations. -/
def bindE {α β : Type} (x : Except Failure α) (f : α → Except Failure β) :
    Except Failure β :=
  match x with
  | .ok a => f a
  | .error e => .error e

/-- Rust slice indexing `out[i]`: panics when `i` is out of bounds. -/
def line_at (out : List String) (i : Nat) : Except Failure String :=
  match out[i]? with
  | some s => .ok s
  | none => .error .panicked

/-- The semver capability applied to the `release:` value: a failure of the
external parser surfaces as `Error.SemVerError` (src/lib.rs line 211). -/
def parse_release (psv : String → Option Version) (release : String) :
    Except Error Version :=
  match psv release with
  | some v => .ok v
  | none => .error .SemVerError

/-- The tail of `version_meta_for` from the `host:` line on
(src/lib.rs lines 207-258 and the final record assembly), with the cursor
`idx` already placed by the build-date step. -/
def parse_tail (psv : String → Option Version) (out : List String)
    (short_version_string : String) (commit_hash commit_date : Option String)
    (build_date : Option String) (idx : Nat) : Except Failure VersionMeta :=
  bindE (line_at out idx) fun lh =>
  bindE (liftE (expectPrefix lh "host: ")) fun host =>
  bindE (line_at out (idx + 1)) fun lr =>
  bindE (liftE (expectPrefix lr "release: ")) fun release =>
  bindE (liftE (parse_release psv release)) fun semver =>
  bindE (liftE (channel_for semver.pre)) fun channel =>
  bindE
    (match out[idx + 2]? with
    | some line =>
      bindE (liftE (expectPrefix line "LLVM version: ")) fun tok =>
      bindE (liftE (parse_llvm_version tok)) fun lv =>
      .ok (some lv)
    | none => .ok (none : Option LLVMVersion)) fun llvm_version =>
  .ok {
    semver := semver
    commit_hash := commit_hash
    commit_date := commit_date
    build_date := build_date
    channel := channel
    host := host
    short_version_string := short_version_string
    llvm_version := llvm_version
  }

/-- `version_meta_for` of src/lib.rs (lines 169-270), acting on the list of
lines of the input, parameterised by the external semver capability. -/
def version_meta_for_lines (psv : String → Option Version)
    (out : List String) : Except Failure VersionMeta :=
  if !(decide (out.length ≥ 6) && decide (out.length ≤ 8)) then
    .error (.err .UnexpectedVersionFormat)
  else
  bindE (line_at out 0) fun short_version_string =>
  bindE (line_at out 2) fun l2 =>
  bindE (liftE (expectPrefix l2 "commit-hash: ")) fun ch =>
  let commit_hash : Option String := if ch = "unknown" then none else some ch
  bindE (line_at out 3) fun l3 =>
  bindE (liftE (expectPrefix l3 "commit-date: ")) fun cd =>
  let commit_date : Option String := if cd = "unknown" then none else some cd
  bindE (line_at out 4) fun l4 =>
  bindE
    (if strSW l4 "build-date" then
      bindE (liftE (expectPrefix l4 "build-date: ")) fun bd =>
      .ok ((if bd = "unknown" then none else some bd), 5)
    else
      .ok ((none : Option String), 4)) fun bdIdx =>
  parse_tail psv out short_version_string commit_hash commit_date bdIdx.1 bdIdx.2

/-- Rust `str::lines`: split on newline, no piece for a final line ending,
and a trailing carriage return stripped from each line. -/
def rustLines (s : String) : List String :=
  let parts := splitChar '\n' s.data
  let parts :=
    match parts.getLast? with
    | some [] => parts.dropLast
    | _ => parts
  parts.map (fun l => if l.getLast? = some '\r' then ⟨l.dropLast⟩ else ⟨l⟩)

/-- `version_meta_for` on the raw verbose-version string. -/
def version_meta_for (psv : String → Option Version) (s : String) :
    Except Failure VersionMeta :=
  version_meta_for_lines psv (rustLines s)

/-- The `#[derive(PartialOrd, Ord)]` comparison on `LLVMVersion`
(src/lib.rs line 95): fields compared in declaration order, major first,
minor as tie-break. -/
def LLVMVersion.cmp (a b : LLVMVersion) : Ordering :=
  (compare a.major b.major).then (compare a.minor b.minor)

/-- `a < b` for the derived order. -/
def LLVMVersion.ltd (a b : LLVMVersion) : Prop := LLVMVersion.cmp a b = .lt

/-- A constant external-semver capability used to instantiate witnesses:
every release string parses as the stable version 1.0.0. -/
def stableSemverStub : String → Option Version := fun _ => some ⟨1, 0, 0, []⟩

/-- Stub semver capability whose versions carry the unrecognized
pre-release tag `alpha`. -/
def alphaSemverStub : String → Option Version :=
  fun _ => some ⟨1, 2, 3, [.alphaNumeric "alpha"]⟩

/-- Claim-side definition (C1's grammar, following the claim's words):
a component is the literal `"0"`, or else non-empty, without leading zero,
and all ASCII decimal digits. -/
def claimComponentOK (c : String) : Bool :=
  decide (c = "0")
    || (!c.data.isEmpty && c.data.head? != some '0'
        && c.data.all (fun ch => ch.isDigit))

/-- Claim-side definition (C1 as stated): the two-component grammar with no
bound on component values. -/
def claimBackendGrammar (s : String) : Option LLVMVersion :=
  match splitOnDot s with
  | [a] =>
    if claimComponentOK a && decide (4 ≤ componentVal a) then
      some ⟨componentVal a, 0⟩
    else none
  | [a, b] =>
    if claimComponentOK a && claimComponentOK b
        && !(decide (4 ≤ componentVal a) && decide (componentVal b ≠ 0)) then
      some ⟨componentVal a, componentVal b⟩
    else none
  | _ => none

/-- Claim-side definition (C1 amended): the same grammar with each
component's value additionally required to fit in `u64`. -/
def claimBackendGrammarBounded (s : String) : Option LLVMVersion :=
  match splitOnDot s with
  | [a] =>
    if (claimComponentOK a && decide (componentVal a ≤ u64Max))
        && decide (4 ≤ componentVal a) then
      some ⟨componentVal a, 0⟩
    else none
  | [a, b] =>
    if (claimComponentOK a && decide (componentVal a ≤ u64Max))
        && (claimComponentOK b && decide (componentVal b ≤ u64Max))
        && !(decide (4 ≤ componentVal a) && decide (componentVal b ≠ 0)) then
      some ⟨componentVal a, componentVal b⟩
    else none
  | _ => none

lemma parse_part_eq (c : String) :
    parse_part c =
      if claimComponentOK c && decide (componentVal c ≤ u64Max) then
        .ok (componentVal c)
      else .error .UnexpectedVersionFormat := by
  by_cases h0 : c = "0"
  · subst h0; decide
  · unfold parse_part claimComponentOK
    simp only [h0, if_false, decide_eq_false h0, Bool.false_or]
    by_cases hA : (c.data.isEmpty || c.data.head? == some '0'
        || c.data.any (fun ch => !ch.isDigit)) = true
    · rw [if_pos hA]
      rcases Bool.or_eq_true _ _ |>.mp hA with h | h
      · rcases Bool.or_eq_true _ _ |>.mp h with h | h
        · simp [h]
        · simp only [beq_iff_eq] at h
          simp [h]
      · have hfalse : c.data.all (fun ch => ch.isDigit) = false := by
          rcases List.any_eq_true.mp h with ⟨x, hx, hpx⟩
          refine List.all_eq_false.mpr ⟨x, hx, ?_⟩
          simpa using hpx
        simp [hfalse]
    · rw [if_neg hA]
      have hA' : (c.data.isEmpty || c.data.head? == some '0'
          || c.data.any (fun ch => !ch.isDigit)) = false := by
        exact Bool.eq_false_iff.mpr hA
      simp only [Bool.or_eq_false_iff] at hA'
      obtain ⟨⟨h1, h2⟩, h3⟩ := hA'
      have hall : c.data.all (fun ch => ch.isDigit) = true := by
        rw [List.all_eq_true]
        intro x hx
        by_contra hcon
        have hany : c.data.any (fun ch => !ch.isDigit) = true :=
          List.any_eq_true.mpr ⟨x, hx, by simpa using hcon⟩
        rw [hany] at h3
        exact absurd h3 (by simp)
      have h2' : (c.data.head? != some '0') = true := by
        simp [bne, h2]
      by_cases hb : componentVal c ≤ u64Max
      · simp [h1, hall, h2', hb]
      · simp [h1, hall, h2', hb]
lemma bindE_ok {α β : Type} (a : α) (f : α → Except Failure β) :
    bindE (.ok a) f = f a := rfl

lemma bindE_error {α β : Type} (e : Failure) (f : α → Except Failure β) :
    bindE (.error e) f = .error e := rfl

lemma liftE_ok {α : Type} (a : α) : liftE (.ok a) = (.ok a : Except Failure α) := rfl

lemma liftE_error {α : Type} (e : Error) :
    liftE (.error e) = (.error (.err e) : Except Failure α) := rfl

lemma bindE_assoc {α β γ : Type} (x : Except Failure α) (f : α → Except Failure β)
    (g : β → Except Failure γ) :
    bindE (bindE x f) g = bindE x (fun a => bindE (f a) g) := by
  cases x <;> rfl

/-- C8: line index 1 is never inspected: changing only line 1 of the input
never changes the outcome of the parse. -/
theorem C8_line1_never_read (psv : String → Option Version) (x0 l1 l1' : String)
    (rest : List String) :
    version_meta_for_lines psv (x0 :: l1 :: rest) =
    version_meta_for_lines psv (x0 :: l1' :: rest) := by
  rcases rest with _ | ⟨a2, _ | ⟨a3, _ | ⟨a4, _ | ⟨a5, _ | ⟨a6, _ | ⟨a7, _ | ⟨a8, rest'⟩⟩⟩⟩⟩⟩⟩
  · rfl
  · rfl
  · rfl
  · rfl
  · by_cases hbd : strSW a4 "build-date" = true <;>
      simp [version_meta_for_lines, parse_tail, line_at, bindE_ok, bindE_error, bindE_assoc, hbd]
  · by_cases hbd : strSW a4 "build-date" = true <;>
      simp [version_meta_for_lines, parse_tail, line_at, bindE_ok, bindE_error, bindE_assoc, hbd]
  · by_cases hbd : strSW a4 "build-date" = true <;>
      simp [version_meta_for_lines, parse_tail, line_at, bindE_ok, bindE_error, bindE_assoc, hbd]
  · have h9 : ∀ y : String,
        version_meta_for_lines psv
          (x0 :: y :: a2 :: a3 :: a4 :: a5 :: a6 :: a7 :: a8 :: rest') =
        .error (.err .UnexpectedVersionFormat) := by
      intro y
      unfold version_meta_for_lines
      rw [if_pos]
      simp only [List.length_cons, Bool.not_eq_true', Bool.and_eq_false_iff,
        decide_eq_false_iff_not]
      omega
    rw [h9, h9]
lemma line_at_eq_ok (out : List String) (i : Nat) (h : i < out.length) :
    line_at out i = .ok (out.getD i "") := by
  unfold line_at
  rw [List.getElem?_eq_getElem h, List.getD_eq_getElem out "" h]

lemma line_at_eq_panic (out : List String) (i : Nat) (h : out.length ≤ i) :
    line_at out i = .error .panicked := by
  unfold line_at
  rw [List.getElem?_eq_none h]

lemma expectPrefix_pos {line p : String} (h : strSW line p = true) :
    expectPrefix line p = .ok (strDropN line p.length) := by
  simp [expectPrefix, h]

lemma expectPrefix_neg {line p : String} (h : strSW line p = false) :
    expectPrefix line p = .error .UnexpectedVersionFormat := by
  simp [expectPrefix, h]

lemma parse_tail_ok (psv : String → Option Version) (out : List String)
    (svs : String) (chash cdate bd : Option String) (idx : Nat) (m : VersionMeta)
    (h : parse_tail psv out svs chash cdate bd idx = .ok m) :
    idx < out.length ∧
    strSW (out.getD idx "") "host: " = true ∧
    idx + 1 < out.length ∧
    strSW (out.getD (idx + 1) "") "release: " = true ∧
    psv (strDropN (out.getD (idx + 1) "") ("release: ".length)) = some m.semver ∧
    channel_for m.semver.pre = .ok m.channel ∧
    m.short_version_string = svs ∧ m.commit_hash = chash ∧ m.commit_date = cdate ∧
    m.build_date = bd ∧
    m.host = strDropN (out.getD idx "") ("host: ".length) ∧
    ((out.length ≤ idx + 2 ∧ m.llvm_version = none) ∨
     (idx + 2 < out.length ∧
      strSW (out.getD (idx + 2) "") "LLVM version: " = true ∧
      ∃ lv, parse_llvm_version
          (strDropN (out.getD (idx + 2) "") ("LLVM version: ".length)) = .ok lv ∧
        m.llvm_version = some lv)) := by
  unfold parse_tail at h
  by_cases h1 : idx < out.length
  case neg =>
    rw [line_at_eq_panic out idx (by omega), bindE_error] at h
    exact absurd h (by simp)
  rw [line_at_eq_ok out idx h1] at h
  simp only [bindE_ok] at h
  by_cases hhost : strSW (out.getD idx "") "host: " = true
  case neg =>
    rw [expectPrefix_neg (Bool.eq_false_iff.mpr hhost), liftE_error, bindE_error] at h
    exact absurd h (by simp)
  rw [expectPrefix_pos hhost, liftE_ok] at h
  simp only [bindE_ok] at h
  by_cases h2 : idx + 1 < out.length
  case neg =>
    rw [line_at_eq_panic out (idx + 1) (by omega), bindE_error] at h
    exact absurd h (by simp)
  rw [line_at_eq_ok out (idx + 1) h2] at h
  simp only [bindE_ok] at h
  by_cases hrel : strSW (out.getD (idx + 1) "") "release: " = true
  case neg =>
    rw [expectPrefix_neg (Bool.eq_false_iff.mpr hrel), liftE_error, bindE_error] at h
    exact absurd h (by simp)
  rw [expectPrefix_pos hrel, liftE_ok] at h
  simp only [bindE_ok] at h

  rcases hsv : psv (strDropN (out.getD (idx + 1) "") ("release: ".length)) with _ | v
  · rw [parse_release, hsv] at h
    simp only [liftE_error, bindE_error] at h
    exact absurd h (by simp)
  · rw [parse_release, hsv] at h
    simp only [liftE_ok, bindE_ok] at h
    rcases hchan : channel_for v.pre with e | c
    · rw [hchan, liftE_error, bindE_error] at h
      exact absurd h (by simp)
    · rw [hchan, liftE_ok] at h
      simp only [bindE_ok] at h
      rcases hllvm : out[idx + 2]? with _ | line
      · rw [hllvm] at h
        simp only [bindE_ok] at h
        obtain rfl := (Except.ok.inj h).symm
        dsimp only
        exact ⟨h1, hhost, h2, hrel, rfl, hchan, rfl, rfl, rfl, rfl, rfl,
          Or.inl ⟨List.getElem?_eq_none_iff.mp hllvm, rfl⟩⟩
      · rw [hllvm] at h
        dsimp only at h
        obtain ⟨hlt3, hline⟩ : idx + 2 < out.length ∧ out.getD (idx + 2) "" = line := by
          obtain ⟨hlt, he⟩ := List.getElem?_eq_some.mp hllvm
          exact ⟨hlt, by rw [List.getD_eq_getElem out "" hlt]; exact he⟩
        by_cases hlp : strSW line "LLVM version: " = true
        case neg =>
          rw [expectPrefix_neg (Bool.eq_false_iff.mpr hlp), liftE_error] at h
          simp only [bindE_error] at h
          exact absurd h (by simp)
        rw [expectPrefix_pos hlp, liftE_ok] at h
        simp only [bindE_assoc, bindE_ok] at h
        rcases hlv : parse_llvm_version (strDropN line ("LLVM version: ".length)) with e | lv
        · rw [hlv, liftE_error] at h
          simp only [bindE_error] at h
          exact absurd h (by simp)
        · rw [hlv, liftE_ok] at h
          simp only [bindE_ok] at h
          obtain rfl := (Except.ok.inj h).symm
          dsimp only
          rw [hline]
          exact ⟨h1, hhost, h2, hrel, rfl, hchan, rfl, rfl, rfl, rfl, rfl,
            Or.inr ⟨hlt3, hlp, lv, hlv, rfl⟩⟩
lemma vmfl_to_tail (psv : String → Option Version) (out : List String)
    (h6 : 6 ≤ out.length) (h8 : out.length ≤ 8)
    (hch : strSW (out.getD 2 "") "commit-hash: " = true)
    (hcd : strSW (out.getD 3 "") "commit-date: " = true) :
    version_meta_for_lines psv out =
      if strSW (out.getD 4 "") "build-date" then
        if strSW (out.getD 4 "") "build-date: " then
          parse_tail psv out (out.getD 0 "")
            (if strDropN (out.getD 2 "") ("commit-hash: ".length) = "unknown" then none
             else some (strDropN (out.getD 2 "") ("commit-hash: ".length)))
            (if strDropN (out.getD 3 "") ("commit-date: ".length) = "unknown" then none
             else some (strDropN (out.getD 3 "") ("commit-date: ".length)))
            (if strDropN (out.getD 4 "") ("build-date: ".length) = "unknown" then none
             else some (strDropN (out.getD 4 "") ("build-date: ".length))) 5
        else .error (.err .UnexpectedVersionFormat)
      else
        parse_tail psv out (out.getD 0 "")
          (if strDropN (out.getD 2 "") ("commit-hash: ".length) = "unknown" then none
           else some (strDropN (out.getD 2 "") ("commit-hash: ".length)))
          (if strDropN (out.getD 3 "") ("commit-date: ".length) = "unknown" then none
           else some (strDropN (out.getD 3 "") ("commit-date: ".length)))
          none 4 := by
  unfold version_meta_for_lines
  have hg : (!(decide (out.length ≥ 6) && decide (out.length ≤ 8))) = false := by
    simp only [Bool.not_eq_false', Bool.and_eq_true, decide_eq_true_eq]
    omega
  rw [hg]
  simp only [Bool.false_eq_true, if_false]
  rw [line_at_eq_ok out 0 (by omega)]
  simp only [bindE_ok]
  rw [line_at_eq_ok out 2 (by omega)]
  simp only [bindE_ok]
  rw [expectPrefix_pos hch, liftE_ok]
  simp only [bindE_ok]
  rw [line_at_eq_ok out 3 (by omega)]
  simp only [bindE_ok]
  rw [expectPrefix_pos hcd, liftE_ok]
  simp only [bindE_ok]
  rw [line_at_eq_ok out 4 (by omega)]
  simp only [bindE_ok]
  by_cases hbd : strSW (out.getD 4 "") "build-date" = true
  · rw [if_pos hbd, if_pos hbd]
    by_cases hbd2 : strSW (out.getD 4 "") "build-date: " = true
    · rw [if_pos hbd2, expectPrefix_pos hbd2, liftE_ok]
      simp only [bindE_assoc, bindE_ok]
    · rw [if_neg hbd2, expectPrefix_neg (Bool.eq_false_iff.mpr hbd2), liftE_error]
      simp only [bindE_assoc, bindE_error]
  · rw [if_neg hbd, if_neg hbd]
    simp only [bindE_ok]
lemma vmfl_ok (psv : String → Option Version) (out : List String) (m : VersionMeta)
    (h : version_meta_for_lines psv out = .ok m) :
    6 ≤ out.length ∧ out.length ≤ 8 ∧
    strSW (out.getD 2 "") "commit-hash: " = true ∧
    strSW (out.getD 3 "") "commit-date: " = true ∧
    m.short_version_string = out.getD 0 "" ∧
    m.commit_hash = (if strDropN (out.getD 2 "") ("commit-hash: ".length) = "unknown"
      then none else some (strDropN (out.getD 2 "") ("commit-hash: ".length))) ∧
    m.commit_date = (if strDropN (out.getD 3 "") ("commit-date: ".length) = "unknown"
      then none else some (strDropN (out.getD 3 "") ("commit-date: ".length))) ∧
    ∃ idx,
      ((strSW (out.getD 4 "") "build-date" = false ∧ idx = 4 ∧ m.build_date = none) ∨
       (strSW (out.getD 4 "") "build-date" = true ∧
        strSW (out.getD 4 "") "build-date: " = true ∧ idx = 5 ∧
        m.build_date = (if strDropN (out.getD 4 "") ("build-date: ".length) = "unknown"
          then none else some (strDropN (out.getD 4 "") ("build-date: ".length))))) ∧
      strSW (out.getD idx "") "host: " = true ∧
      idx + 1 < out.length ∧
      strSW (out.getD (idx + 1) "") "release: " = true ∧
      psv (strDropN (out.getD (idx + 1) "") ("release: ".length)) = some m.semver ∧
      channel_for m.semver.pre = .ok m.channel ∧
      m.host = strDropN (out.getD idx "") ("host: ".length) ∧
      ((out.length ≤ idx + 2 ∧ m.llvm_version = none) ∨
       (idx + 2 < out.length ∧
        strSW (out.getD (idx + 2) "") "LLVM version: " = true ∧
        ∃ lv, parse_llvm_version
            (strDropN (out.getD (idx + 2) "") ("LLVM version: ".length)) = .ok lv ∧
          m.llvm_version = some lv)) := by
  unfold version_meta_for_lines at h
  by_cases hg : (!(decide (out.length ≥ 6) && decide (out.length ≤ 8))) = true
  case pos => rw [if_pos hg] at h; exact absurd h (by simp)
  rw [if_neg hg] at h
  obtain ⟨h6, h8⟩ : 6 ≤ out.length ∧ out.length ≤ 8 := by
    have := Bool.eq_false_iff.mpr hg
    simp only [Bool.not_eq_false', Bool.and_eq_true, decide_eq_true_eq] at this
    omega
  rw [line_at_eq_ok out 0 (by omega)] at h
  simp only [bindE_ok] at h
  rw [line_at_eq_ok out 2 (by omega)] at h
  simp only [bindE_ok] at h
  by_cases hch : strSW (out.getD 2 "") "commit-hash: " = true
  case neg =>
    rw [expectPrefix_neg (Bool.eq_false_iff.mpr hch), liftE_error, bindE_error] at h
    exact absurd h (by simp)
  rw [expectPrefix_pos hch, liftE_ok] at h
  simp only [bindE_ok] at h
  rw [line_at_eq_ok out 3 (by omega)] at h
  simp only [bindE_ok] at h
  by_cases hcd : strSW (out.getD 3 "") "commit-date: " = true
  case neg =>
    rw [expectPrefix_neg (Bool.eq_false_iff.mpr hcd), liftE_error, bindE_error] at h
    exact absurd h (by simp)
  rw [expectPrefix_pos hcd, liftE_ok] at h
  simp only [bindE_ok] at h
  rw [line_at_eq_ok out 4 (by omega)] at h
  simp only [bindE_ok] at h
  by_cases hbd : strSW (out.getD 4 "") "build-date" = true
  · rw [if_pos hbd] at h
    by_cases hbd2 : strSW (out.getD 4 "") "build-date: " = true
    case neg =>
      rw [expectPrefix_neg (Bool.eq_false_iff.mpr hbd2), liftE_error] at h
      simp only [bindE_assoc, bindE_error] at h
      exact absurd h (by simp)
    rw [expectPrefix_pos hbd2, liftE_ok] at h
    simp only [bindE_assoc, bindE_ok] at h
    obtain ⟨_, hhost, h2, hrel, hsv, hchan, hsvs, hchash, hcdate, hbuild, hhostf, hllvm⟩ :=
      parse_tail_ok _ _ _ _ _ _ _ _ h
    exact ⟨h6, h8, hch, hcd, hsvs, hchash, hcdate, 5,
      Or.inr ⟨hbd, hbd2, rfl, hbuild⟩, hhost, h2, hrel, hsv, hchan, hhostf, hllvm⟩
  · rw [if_neg hbd] at h
    simp only [bindE_ok] at h
    obtain ⟨_, hhost, h2, hrel, hsv, hchan, hsvs, hchash, hcdate, hbuild, hhostf, hllvm⟩ :=
      parse_tail_ok _ _ _ _ _ _ _ _ h
    exact ⟨h6, h8, hch, hcd, hsvs, hchash, hcdate, 4,
      Or.inl ⟨Bool.eq_false_iff.mpr hbd, rfl, hbuild⟩, hhost, h2, hrel, hsv, hchan, hhostf, hllvm⟩
lemma parse_tail_host_err (psv : String → Option Version) (out : List String)
    (svs : String) (chash cdate bd : Option String) (idx : Nat)
    (h1 : idx < out.length)
    (hhost : strSW (out.getD idx "") "host: " = false) :
    parse_tail psv out svs chash cdate bd idx = .error (.err .UnexpectedVersionFormat) := by
  unfold parse_tail
  rw [line_at_eq_ok out idx h1]
  simp only [bindE_ok]
  rw [expectPrefix_neg hhost, liftE_error, bindE_error]

lemma parse_tail_release_err (psv : String → Option Version) (out : List String)
    (svs : String) (chash cdate bd : Option String) (idx : Nat)
    (h1 : idx < out.length)
    (hhost : strSW (out.getD idx "") "host: " = true)
    (h2 : idx + 1 < out.length)
    (hrel : strSW (out.getD (idx + 1) "") "release: " = false) :
    parse_tail psv out svs chash cdate bd idx = .error (.err .UnexpectedVersionFormat) := by
  unfold parse_tail
  rw [line_at_eq_ok out idx h1]
  simp only [bindE_ok]
  rw [expectPrefix_pos hhost, liftE_ok]
  simp only [bindE_ok]
  rw [line_at_eq_ok out (idx + 1) h2]
  simp only [bindE_ok]
  rw [expectPrefix_neg hrel, liftE_error, bindE_error]

lemma parse_tail_channel_err (psv : String → Option Version) (out : List String)
    (svs : String) (chash cdate bd : Option String) (idx : Nat) (v : Version) (e : Error)
    (h1 : idx < out.length)
    (hhost : strSW (out.getD idx "") "host: " = true)
    (h2 : idx + 1 < out.length)
    (hrel : strSW (out.getD (idx + 1) "") "release: " = true)
    (hsv : psv (strDropN (out.getD (idx + 1) "") ("release: ".length)) = some v)
    (hchan : channel_for v.pre = .error e) :
    parse_tail psv out svs chash cdate bd idx = .error (.err e) := by
  unfold parse_tail
  rw [line_at_eq_ok out idx h1]
  simp only [bindE_ok]
  rw [expectPrefix_pos hhost, liftE_ok]
  simp only [bindE_ok]
  rw [line_at_eq_ok out (idx + 1) h2]
  simp only [bindE_ok]
  rw [expectPrefix_pos hrel, liftE_ok]
  simp only [bindE_ok]
  rw [parse_release, hsv]
  simp only [liftE_ok, bindE_ok]
  rw [hchan, liftE_error, bindE_error]

lemma parse_tail_llvm_err (psv : String → Option Version) (out : List String)
    (svs : String) (chash cdate bd : Option String) (idx : Nat) (v : Version) (c : Channel)
    (h1 : idx < out.length)
    (hhost : strSW (out.getD idx "") "host: " = true)
    (h2 : idx + 1 < out.length)
    (hrel : strSW (out.getD (idx + 1) "") "release: " = true)
    (hsv : psv (strDropN (out.getD (idx + 1) "") ("release: ".length)) = some v)
    (hchan : channel_for v.pre = .ok c)
    (h3 : idx + 2 < out.length)
    (hlp : strSW (out.getD (idx + 2) "") "LLVM version: " = false) :
    parse_tail psv out svs chash cdate bd idx = .error (.err .UnexpectedVersionFormat) := by
  unfold parse_tail
  rw [line_at_eq_ok out idx h1]
  simp only [bindE_ok]
  rw [expectPrefix_pos hhost, liftE_ok]
  simp only [bindE_ok]
  rw [line_at_eq_ok out (idx + 1) h2]
  simp only [bindE_ok]
  rw [expectPrefix_pos hrel, liftE_ok]
  simp only [bindE_ok]
  rw [parse_release, hsv]
  simp only [liftE_ok, bindE_ok]
  rw [hchan, liftE_ok]
  simp only [bindE_ok]
  rw [List.getElem?_eq_getElem h3, ← List.getD_eq_getElem out "" h3]
  dsimp only
  rw [expectPrefix_neg hlp, liftE_error]
  simp only [bindE_assoc, bindE_error]

lemma parse_tail_llvm_absent (psv : String → Option Version) (out : List String)
    (svs : String) (chash cdate bd : Option String) (idx : Nat) (v : Version) (c : Channel)
    (h1 : idx < out.length)
    (hhost : strSW (out.getD idx "") "host: " = true)
    (h2 : idx + 1 < out.length)
    (hrel : strSW (out.getD (idx + 1) "") "release: " = true)
    (hsv : psv (strDropN (out.getD (idx + 1) "") ("release: ".length)) = some v)
    (hchan : channel_for v.pre = .ok c)
    (h3 : out.length = idx + 2) :
    parse_tail psv out svs chash cdate bd idx =
      .ok ⟨v, chash, cdate, bd, c, strDropN (out.getD idx "") ("host: ".length), svs, none⟩ := by
  unfold parse_tail
  rw [line_at_eq_ok out idx h1]
  simp only [bindE_ok]
  rw [expectPrefix_pos hhost, liftE_ok]
  simp only [bindE_ok]
  rw [line_at_eq_ok out (idx + 1) h2]
  simp only [bindE_ok]
  rw [expectPrefix_pos hrel, liftE_ok]
  simp only [bindE_ok]
  rw [parse_release, hsv]
  simp only [liftE_ok, bindE_ok]
  rw [hchan, liftE_ok]
  simp only [bindE_ok]
  rw [List.getElem?_eq_none (by omega)]
  simp only [bindE_ok]
lemma vmfl_commit_hash_err (psv : String → Option Version) (out : List String)
    (h6 : 6 ≤ out.length) (h8 : out.length ≤ 8)
    (hch : strSW (out.getD 2 "") "commit-hash: " = false) :
    version_meta_for_lines psv out = .error (.err .UnexpectedVersionFormat) := by
  unfold version_meta_for_lines
  have hg : (!(decide (out.length ≥ 6) && decide (out.length ≤ 8))) = false := by
    simp only [Bool.not_eq_false', Bool.and_eq_true, decide_eq_true_eq]
    omega
  rw [hg]
  simp only [Bool.false_eq_true, if_false]
  rw [line_at_eq_ok out 0 (by omega)]
  simp only [bindE_ok]
  rw [line_at_eq_ok out 2 (by omega)]
  simp only [bindE_ok]
  rw [expectPrefix_neg hch, liftE_error, bindE_error]

lemma vmfl_commit_date_err (psv : String → Option Version) (out : List String)
    (h6 : 6 ≤ out.length) (h8 : out.length ≤ 8)
    (hch : strSW (out.getD 2 "") "commit-hash: " = true)
    (hcd : strSW (out.getD 3 "") "commit-date: " = false) :
    version_meta_for_lines psv out = .error (.err .UnexpectedVersionFormat) := by
  unfold version_meta_for_lines
  have hg : (!(decide (out.length ≥ 6) && decide (out.length ≤ 8))) = false := by
    simp only [Bool.not_eq_false', Bool.and_eq_true, decide_eq_true_eq]
    omega
  rw [hg]
  simp only [Bool.false_eq_true, if_false]
  rw [line_at_eq_ok out 0 (by omega)]
  simp only [bindE_ok]
  rw [line_at_eq_ok out 2 (by omega)]
  simp only [bindE_ok]
  rw [expectPrefix_pos hch, liftE_ok]
  simp only [bindE_ok]
  rw [line_at_eq_ok out 3 (by omega)]
  simp only [bindE_ok]
  rw [expectPrefix_neg hcd, liftE_error, bindE_error]

lemma channel_for_ok_cases (pre : List Identifier) (c : Channel)
    (h : channel_for pre = .ok c) :
    (pre = [] ∧ c = .Stable) ∨
    (∃ r, pre = .alphaNumeric "dev" :: r ∧ c = .Dev) ∨
    (∃ r, pre = .alphaNumeric "beta" :: r ∧ c = .Beta) ∨
    (∃ r, pre = .alphaNumeric "nightly" :: r ∧ c = .Nightly) := by
  match pre with
  | [] =>
    left
    refine ⟨rfl, ?_⟩
    have := Except.ok.inj h
    exact this.symm
  | .alphaNumeric s :: r =>
    simp only [channel_for] at h
    by_cases hd : s = "dev"
    · subst hd
      rw [if_pos rfl] at h
      exact Or.inr (Or.inl ⟨r, rfl, (Except.ok.inj h).symm⟩)
    · rw [if_neg hd] at h
      by_cases hb : s = "beta"
      · subst hb
        rw [if_pos rfl] at h
        exact Or.inr (Or.inr (Or.inl ⟨r, rfl, (Except.ok.inj h).symm⟩))
      · rw [if_neg hb] at h
        by_cases hn : s = "nightly"
        · subst hn
          rw [if_pos rfl] at h
          exact Or.inr (Or.inr (Or.inr ⟨r, rfl, (Except.ok.inj h).symm⟩))
        · rw [if_neg hn] at h
          exact absurd h (by simp)
  | .numeric n :: r =>
    simp only [channel_for] at h
    exact absurd h (by simp)

lemma channel_for_unknown (x : Identifier) (rest : List Identifier)
    (hx : ∀ s, x = .alphaNumeric s → s ≠ "dev" ∧ s ≠ "beta" ∧ s ≠ "nightly") :
    channel_for (x :: rest) = .error (.UnknownPreReleaseTag x) := by
  match x with
  | .alphaNumeric s =>
    obtain ⟨hd, hb, hn⟩ := hx s rfl
    simp only [channel_for]
    rw [if_neg hd, if_neg hb, if_neg hn]
  | .numeric n =>
    rfl

/-- C1 counterexample: the token `"18446744073709551616"` (2^64) is accepted
by the claim's two-component grammar as a lone major component, yet
`parse_llvm_version` rejects it with `UnexpectedVersionFormat`. -/
theorem C1_counterexample :
    claimBackendGrammar "18446744073709551616" =
      some ⟨18446744073709551616, 0⟩ ∧
    parse_llvm_version "18446744073709551616" =
      .error .UnexpectedVersionFormat :=
  ⟨by decide, by decide⟩

/-- C1 (amended): the LLVM-version token parser accepts exactly the tokens of
the two-component grammar whose components also have numeric values fitting
in `u64`; every failure is `UnexpectedVersionFormat`, and on success the
result is the parsed major and minor, with minor 0 when the second component
was legitimately omitted (major at least 4). -/
theorem C1_backend_grammar (s : String) :
    parse_llvm_version s =
      match claimBackendGrammarBounded s with
      | some v => .ok v
      | none => .error .UnexpectedVersionFormat := by
  rcases hs : splitOnDot s with _ | ⟨a, _ | ⟨b, rest2⟩⟩
  · simp only [parse_llvm_version, claimBackendGrammarBounded, hs]
  · simp only [parse_llvm_version, claimBackendGrammarBounded, hs]
    rw [parse_part_eq]
    by_cases hA : (claimComponentOK a && decide (componentVal a ≤ u64Max)) = true
    · rw [if_pos hA]
      by_cases h4 : componentVal a < 4
      · have h4' : decide (4 ≤ componentVal a) = false := by simp; omega
        simp [hA, h4, h4']
      · have h4' : decide (4 ≤ componentVal a) = true := by simp; omega
        simp [hA, h4, h4']
    · rw [if_neg hA]
      have hA' : (claimComponentOK a && decide (componentVal a ≤ u64Max)) = false :=
        Bool.eq_false_iff.mpr hA
      simp [hA']
  · simp only [parse_llvm_version, claimBackendGrammarBounded, hs]
    rw [parse_part_eq]
    by_cases hA : (claimComponentOK a && decide (componentVal a ≤ u64Max)) = true
    · rw [if_pos hA]
      rw [parse_part_eq]
      by_cases hB : (claimComponentOK b && decide (componentVal b ≤ u64Max)) = true
      · rw [if_pos hB]
        cases rest2 with
        | nil =>
          simp only [ne_eq, not_true_eq_false, if_false]
          by_cases hm : componentVal a ≥ 4 ∧ componentVal b ≠ 0
          · have hd : (decide (4 ≤ componentVal a) && decide (componentVal b ≠ 0)) = true := by
              simp [hm.1, hm.2]
            simp [hA, hB, hd, hm]
          · have hd : (decide (4 ≤ componentVal a) && decide (componentVal b ≠ 0)) = false := by
              rcases Decidable.not_and_iff_or_not.mp hm with h | h <;> simp [h]
            have hcond : componentVal a < 4 ∨ componentVal b = 0 := by
              by_cases h : 4 ≤ componentVal a
              · exact Or.inr (not_not.mp (fun hb => hm ⟨h, hb⟩))
              · exact Or.inl (by omega)
            simp [hA, hB, hd, hm, hcond]
        | cons x xs =>
          simp
      · rw [if_neg hB]
        have hB' : (claimComponentOK b && decide (componentVal b ≤ u64Max)) = false :=
          Bool.eq_false_iff.mpr hB
        cases rest2 <;> simp [hB']
    · rw [if_neg hA]
      have hA' : (claimComponentOK a && decide (componentVal a ≤ u64Max)) = false :=
        Bool.eq_false_iff.mpr hA
      cases rest2 <;> simp [hA']

/-- Witness for C1 at the concrete token `"11.0"`. -/
theorem C1_witness : parse_llvm_version "11.0" = .ok ⟨11, 0⟩ := by
  have h := C1_backend_grammar "11.0"
  rw [h]
  decide

lemma strSW_build_date {s : String} (h : strSW s "build-date: " = true) :
    strSW s "build-date" = true := by
  unfold strSW at h ⊢
  rw [List.isPrefixOf_iff_prefix] at h ⊢
  have h2 : ("build-date".data) <+: ("build-date: ".data) := by
    rw [← List.isPrefixOf_iff_prefix]
    decide
  exact h2.trans h

/-- C2: channel law. On success the channel is derived from the first
pre-release identifier of the parsed release version (`dev`, `beta`,
`nightly`, or none for `Stable`); any other first identifier makes the
whole parse fail with `UnknownPreReleaseTag` carrying that identifier. -/
theorem C2_channel_law :
    (∀ (psv : String → Option Version) (out : List String) (m : VersionMeta),
      version_meta_for_lines psv out = .ok m →
      (m.semver.pre = [] ∧ m.channel = .Stable) ∨
      (∃ r, m.semver.pre = .alphaNumeric "dev" :: r ∧ m.channel = .Dev) ∨
      (∃ r, m.semver.pre = .alphaNumeric "beta" :: r ∧ m.channel = .Beta) ∨
      (∃ r, m.semver.pre = .alphaNumeric "nightly" :: r ∧ m.channel = .Nightly)) ∧
    (∀ (psv : String → Option Version) (out : List String) (idx : Nat)
        (v : Version) (x : Identifier) (rest : List Identifier),
      6 ≤ out.length → out.length ≤ 8 →
      strSW (out.getD 2 "") "commit-hash: " = true →
      strSW (out.getD 3 "") "commit-date: " = true →
      ((strSW (out.getD 4 "") "build-date" = false ∧ idx = 4) ∨
       (strSW (out.getD 4 "") "build-date: " = true ∧ idx = 5)) →
      strSW (out.getD idx "") "host: " = true →
      idx + 1 < out.length →
      strSW (out.getD (idx + 1) "") "release: " = true →
      psv (strDropN (out.getD (idx + 1) "") ("release: ".length)) = some v →
      v.pre = x :: rest →
      (∀ s, x = .alphaNumeric s → s ≠ "dev" ∧ s ≠ "beta" ∧ s ≠ "nightly") →
      version_meta_for_lines psv out = .error (.err (.UnknownPreReleaseTag x))) := by
  constructor
  · intro psv out m h
    obtain ⟨_, _, _, _, _, _, _, idx, _, _, _, _, _, hchan, _, _⟩ := vmfl_ok psv out m h
    exact channel_for_ok_cases _ _ hchan
  · intro psv out idx v x rest h6 h8 hch hcd hbdx hhost h2 hrel hsv hpre hx
    have hchan : channel_for v.pre = .error (.UnknownPreReleaseTag x) := by
      rw [hpre]
      exact channel_for_unknown x rest hx
    rcases hbdx with ⟨hbd, rfl⟩ | ⟨hbd2, rfl⟩
    · rw [vmfl_to_tail psv out h6 h8 hch hcd, if_neg (by rw [hbd]; simp)]
      exact parse_tail_channel_err psv out _ _ _ _ 4 v _ (by omega) hhost h2 hrel hsv hchan
    · rw [vmfl_to_tail psv out h6 h8 hch hcd, if_pos (strSW_build_date hbd2), if_pos hbd2]
      exact parse_tail_channel_err psv out _ _ _ _ 5 v _ (by omega) hhost h2 hrel hsv hchan

/-- Witness for C2 at a concrete banner. -/
theorem C2_witness :
    version_meta_for_lines alphaSemverStub
      ["rustc 1.2.3-alpha", "binary: rustc", "commit-hash: unknown",
       "commit-date: unknown", "host: h", "release: 1.2.3-alpha"] =
    .error (.err (.UnknownPreReleaseTag (.alphaNumeric "alpha"))) :=
  C2_channel_law.2 alphaSemverStub
    ["rustc 1.2.3-alpha", "binary: rustc", "commit-hash: unknown",
     "commit-date: unknown", "host: h", "release: 1.2.3-alpha"]
    4 ⟨1, 2, 3, [.alphaNumeric "alpha"]⟩ (.alphaNumeric "alpha") []
    (by decide) (by decide) (by decide) (by decide)
    (Or.inl ⟨by decide, rfl⟩) (by decide) (by decide) (by decide)
    (by decide) (by decide)
    (by
      intro s hs
      injection hs with h
      subst h
      exact ⟨by decide, by decide, by decide⟩)

/-- C3: the optional build-date line. At line index 4, a line beginning
with `build-date` is consumed (full prefix `build-date: ` required, with the
unknown sentinel) and the cursor advances to 5; otherwise `build_date` stays
absent and the cursor stays at 4; either way the cursor line must then carry
prefix `host: ` and the following line prefix `release: `, each mismatch
failing with `UnexpectedVersionFormat`. -/
theorem C3_build_date_cursor (psv : String → Option Version) (out : List String)
    (h6 : 6 ≤ out.length) (h8 : out.length ≤ 8)
    (hch : strSW (out.getD 2 "") "commit-hash: " = true)
    (hcd : strSW (out.getD 3 "") "commit-date: " = true) :
    (strSW (out.getD 4 "") "build-date" = false →
      (∀ m, version_meta_for_lines psv out = .ok m → m.build_date = none) ∧
      (strSW (out.getD 4 "") "host: " = false →
        version_meta_for_lines psv out = .error (.err .UnexpectedVersionFormat)) ∧
      (strSW (out.getD 4 "") "host: " = true →
        strSW (out.getD 5 "") "release: " = false →
        version_meta_for_lines psv out = .error (.err .UnexpectedVersionFormat))) ∧
    (strSW (out.getD 4 "") "build-date" = true →
      (strSW (out.getD 4 "") "build-date: " = false →
        version_meta_for_lines psv out = .error (.err .UnexpectedVersionFormat)) ∧
      (strSW (out.getD 4 "") "build-date: " = true →
        (∀ m, version_meta_for_lines psv out = .ok m →
          m.build_date = (if strDropN (out.getD 4 "") ("build-date: ".length) = "unknown"
            then none else some (strDropN (out.getD 4 "") ("build-date: ".length)))) ∧
        (strSW (out.getD 5 "") "host: " = false →
          version_meta_for_lines psv out = .error (.err .UnexpectedVersionFormat)) ∧
        (strSW (out.getD 5 "") "host: " = true → 6 < out.length →
          strSW (out.getD 6 "") "release: " = false →
          version_meta_for_lines psv out = .error (.err .UnexpectedVersionFormat)))) := by
  constructor
  · intro hbd
    refine ⟨?_, ?_, ?_⟩
    · intro m h
      obtain ⟨_, _, _, _, _, _, _, idx, hdisj, _⟩ := vmfl_ok psv out m h
      rcases hdisj with ⟨_, _, hbuild⟩ | ⟨hbd1, _, _, _⟩
      · exact hbuild
      · rw [hbd] at hbd1
        exact absurd hbd1 (by simp)
    · intro hhost
      rw [vmfl_to_tail psv out h6 h8 hch hcd, if_neg (by rw [hbd]; simp)]
      exact parse_tail_host_err psv out _ _ _ _ 4 (by omega) hhost
    · intro hhost hrel
      rw [vmfl_to_tail psv out h6 h8 hch hcd, if_neg (by rw [hbd]; simp)]
      exact parse_tail_release_err psv out _ _ _ _ 4 (by omega) hhost (by omega) hrel
  · intro hbd
    constructor
    · intro hbd2
      rw [vmfl_to_tail psv out h6 h8 hch hcd, if_pos hbd, if_neg (by rw [hbd2]; simp)]
    · intro hbd2
      refine ⟨?_, ?_, ?_⟩
      · intro m h
        obtain ⟨_, _, _, _, _, _, _, idx, hdisj, _⟩ := vmfl_ok psv out m h
        rcases hdisj with ⟨hbd1, _, _⟩ | ⟨_, _, _, hbuild⟩
        · rw [hbd] at hbd1
          exact absurd hbd1 (by simp)
        · exact hbuild
      · intro hhost
        rw [vmfl_to_tail psv out h6 h8 hch hcd, if_pos hbd, if_pos hbd2]
        exact parse_tail_host_err psv out _ _ _ _ 5 (by omega) hhost
      · intro hhost h7 hrel
        rw [vmfl_to_tail psv out h6 h8 hch hcd, if_pos hbd, if_pos hbd2]
        exact parse_tail_release_err psv out _ _ _ _ 5 (by omega) hhost (by omega) hrel

/-- Witness for C3 at concrete banners: a consumed build-date line with a
malformed prefix fails, and a 7-line banner with build-date succeeds with the
cursor advanced. -/
theorem C3_witness :
    version_meta_for_lines stableSemverStub
      ["rustc 1.0.0", "binary: rustc", "commit-hash: unknown",
       "commit-date: unknown", "build-dateX", "host: h"] =
    .error (.err .UnexpectedVersionFormat) :=
  ((C3_build_date_cursor stableSemverStub
      ["rustc 1.0.0", "binary: rustc", "commit-hash: unknown",
       "commit-date: unknown", "build-dateX", "host: h"]
      (by decide) (by decide) (by decide) (by decide)).2
    (by decide)).1 (by decide)

/-- C5: fixed-position fields. On success the short version string is line 0
verbatim; lines 2 and 3 carry the `commit-hash: ` and `commit-date: `
prefixes, whose remainders (and a consumed build-date remainder) follow the
`unknown` sentinel rule; a prefix mismatch at line 2 or 3 fails with
`UnexpectedVersionFormat`. -/
theorem C5_fixed_fields :
    (∀ (psv : String → Option Version) (out : List String) (m : VersionMeta),
      version_meta_for_lines psv out = .ok m →
      m.short_version_string = out.getD 0 "" ∧
      strSW (out.getD 2 "") "commit-hash: " = true ∧
      strSW (out.getD 3 "") "commit-date: " = true ∧
      m.commit_hash = (if strDropN (out.getD 2 "") ("commit-hash: ".length) = "unknown"
        then none else some (strDropN (out.getD 2 "") ("commit-hash: ".length))) ∧
      m.commit_date = (if strDropN (out.getD 3 "") ("commit-date: ".length) = "unknown"
        then none else some (strDropN (out.getD 3 "") ("commit-date: ".length))) ∧
      (strSW (out.getD 4 "") "build-date: " = true →
        m.build_date = (if strDropN (out.getD 4 "") ("build-date: ".length) = "unknown"
          then none else some (strDropN (out.getD 4 "") ("build-date: ".length))))) ∧
    (∀ (psv : String → Option Version) (out : List String),
      6 ≤ out.length → out.length ≤ 8 →
      (strSW (out.getD 2 "") "commit-hash: " = false →
        version_meta_for_lines psv out = .error (.err .UnexpectedVersionFormat)) ∧
      (strSW (out.getD 2 "") "commit-hash: " = true →
        strSW (out.getD 3 "") "commit-date: " = false →
        version_meta_for_lines psv out = .error (.err .UnexpectedVersionFormat))) := by
  constructor
  · intro psv out m h
    obtain ⟨_, _, hch, hcd, hsvs, hchash, hcdate, idx, hdisj, _⟩ := vmfl_ok psv out m h
    refine ⟨hsvs, hch, hcd, hchash, hcdate, ?_⟩
    intro hbd2
    rcases hdisj with ⟨hbd1, _, _⟩ | ⟨_, _, _, hbuild⟩
    · rw [strSW_build_date hbd2] at hbd1
      exact absurd hbd1 (by simp)
    · exact hbuild
  · intro psv out h6 h8
    exact ⟨fun hch => vmfl_commit_hash_err psv out h6 h8 hch,
           fun hch hcd => vmfl_commit_date_err psv out h6 h8 hch hcd⟩

/-- Witness for C5: the success direction instantiated at a concrete
banner, and a commit-hash prefix mismatch failing. -/
theorem C5_witness :
    ((⟨⟨1, 0, 0, []⟩, some "abc", none, none, .Stable, "h",
       "rustc 1.0.0 (x 2015)", none⟩ : VersionMeta).short_version_string =
       (["rustc 1.0.0 (x 2015)", "binary: rustc", "commit-hash: abc",
         "commit-date: unknown", "host: h", "release: 1.0.0"].getD 0 "") ∧
     strSW (["rustc 1.0.0 (x 2015)", "binary: rustc", "commit-hash: abc",
         "commit-date: unknown", "host: h", "release: 1.0.0"].getD 2 "")
       "commit-hash: " = true ∧
     strSW (["rustc 1.0.0 (x 2015)", "binary: rustc", "commit-hash: abc",
         "commit-date: unknown", "host: h", "release: 1.0.0"].getD 3 "")
       "commit-date: " = true ∧
     (⟨⟨1, 0, 0, []⟩, some "abc", none, none, .Stable, "h",
       "rustc 1.0.0 (x 2015)", none⟩ : VersionMeta).commit_hash =
       (if strDropN (["rustc 1.0.0 (x 2015)", "binary: rustc", "commit-hash: abc",
           "commit-date: unknown", "host: h", "release: 1.0.0"].getD 2 "")
           ("commit-hash: ".length) = "unknown" then none
        else some (strDropN (["rustc 1.0.0 (x 2015)", "binary: rustc",
           "commit-hash: abc", "commit-date: unknown", "host: h",
           "release: 1.0.0"].getD 2 "") ("commit-hash: ".length))) ∧
     (⟨⟨1, 0, 0, []⟩, some "abc", none, none, .Stable, "h",
       "rustc 1.0.0 (x 2015)", none⟩ : VersionMeta).commit_date =
       (if strDropN (["rustc 1.0.0 (x 2015)", "binary: rustc", "commit-hash: abc",
           "commit-date: unknown", "host: h", "release: 1.0.0"].getD 3 "")
           ("commit-date: ".length) = "unknown" then none
        else some (strDropN (["rustc 1.0.0 (x 2015)", "binary: rustc",
           "commit-hash: abc", "commit-date: unknown", "host: h",
           "release: 1.0.0"].getD 3 "") ("commit-date: ".length))) ∧
     (strSW (["rustc 1.0.0 (x 2015)", "binary: rustc", "commit-hash: abc",
         "commit-date: unknown", "host: h", "release: 1.0.0"].getD 4 "")
         "build-date: " = true →
       (⟨⟨1, 0, 0, []⟩, some "abc", none, none, .Stable, "h",
         "rustc 1.0.0 (x 2015)", none⟩ : VersionMeta).build_date =
         (if strDropN (["rustc 1.0.0 (x 2015)", "binary: rustc",
             "commit-hash: abc", "commit-date: unknown", "host: h",
             "release: 1.0.0"].getD 4 "") ("build-date: ".length) = "unknown"
          then none
          else some (strDropN (["rustc 1.0.0 (x 2015)", "binary: rustc",
             "commit-hash: abc", "commit-date: unknown", "host: h",
             "release: 1.0.0"].getD 4 "") ("build-date: ".length))))) ∧
    version_meta_for_lines stableSemverStub
      ["rustc 1.0.0", "binary: rustc", "commit hash: bad",
       "commit-date: unknown", "host: h", "release: 1.0.0"] =
    .error (.err .UnexpectedVersionFormat) :=
  ⟨C5_fixed_fields.1 stableSemverStub
      ["rustc 1.0.0 (x 2015)", "binary: rustc", "commit-hash: abc",
       "commit-date: unknown", "host: h", "release: 1.0.0"]
      ⟨⟨1, 0, 0, []⟩, some "abc", none, none, .Stable, "h",
       "rustc 1.0.0 (x 2015)", none⟩ (by decide),
   (C5_fixed_fields.2 stableSemverStub
      ["rustc 1.0.0", "binary: rustc", "commit hash: bad",
       "commit-date: unknown", "host: h", "release: 1.0.0"]
      (by decide) (by decide)).1 (by decide)⟩

/-- C6: the optional backend-version line. On success, either the cursor was
at end of input after the `release:` line and `llvm_version` is absent, or
the line after carries prefix `LLVM version: ` and its remainder parses into
`llvm_version`; with the pipeline up to the channel succeeding, a prefix
mismatch there fails with `UnexpectedVersionFormat`, while absence of the
line is not an error and yields an absent `llvm_version`. -/
theorem C6_llvm_line :
    (∀ (psv : String → Option Version) (out : List String) (m : VersionMeta),
      version_meta_for_lines psv out = .ok m →
      ∃ idx,
        ((strSW (out.getD 4 "") "build-date" = false ∧ idx = 4) ∨
         (strSW (out.getD 4 "") "build-date" = true ∧ idx = 5)) ∧
        ((out.length ≤ idx + 2 ∧ m.llvm_version = none) ∨
         (idx + 2 < out.length ∧
          strSW (out.getD (idx + 2) "") "LLVM version: " = true ∧
          ∃ lv, parse_llvm_version
              (strDropN (out.getD (idx + 2) "") ("LLVM version: ".length)) = .ok lv ∧
            m.llvm_version = some lv))) ∧
    (∀ (psv : String → Option Version) (out : List String) (idx : Nat)
        (v : Version) (c : Channel),
      6 ≤ out.length → out.length ≤ 8 →
      strSW (out.getD 2 "") "commit-hash: " = true →
      strSW (out.getD 3 "") "commit-date: " = true →
      ((strSW (out.getD 4 "") "build-date" = false ∧ idx = 4) ∨
       (strSW (out.getD 4 "") "build-date: " = true ∧ idx = 5)) →
      strSW (out.getD idx "") "host: " = true →
      idx + 1 < out.length →
      strSW (out.getD (idx + 1) "") "release: " = true →
      psv (strDropN (out.getD (idx + 1) "") ("release: ".length)) = some v →
      channel_for v.pre = .ok c →
      (idx + 2 < out.length →
        strSW (out.getD (idx + 2) "") "LLVM version: " = false →
        version_meta_for_lines psv out = .error (.err .UnexpectedVersionFormat)) ∧
      (out.length = idx + 2 →
        ∃ m, version_meta_for_lines psv out = .ok m ∧ m.llvm_version = none)) := by
  constructor
  · intro psv out m h
    obtain ⟨_, _, _, _, _, _, _, idx, hdisj, _, _, _, _, _, _, hllvm⟩ := vmfl_ok psv out m h
    refine ⟨idx, ?_, hllvm⟩
    rcases hdisj with ⟨hbd, hidx, _⟩ | ⟨hbd, _, hidx, _⟩
    · exact Or.inl ⟨hbd, hidx⟩
    · exact Or.inr ⟨hbd, hidx⟩
  · intro psv out idx v c h6 h8 hch hcd hbdx hhost h2 hrel hsv hchan
    have hrew : version_meta_for_lines psv out =
        parse_tail psv out (out.getD 0 "")
          (if strDropN (out.getD 2 "") ("commit-hash: ".length) = "unknown" then none
           else some (strDropN (out.getD 2 "") ("commit-hash: ".length)))
          (if strDropN (out.getD 3 "") ("commit-date: ".length) = "unknown" then none
           else some (strDropN (out.getD 3 "") ("commit-date: ".length)))
          (if strSW (out.getD 4 "") "build-date" then
            (if strDropN (out.getD 4 "") ("build-date: ".length) = "unknown" then none
             else some (strDropN (out.getD 4 "") ("build-date: ".length)))
           else none)
          idx := by
      rcases hbdx with ⟨hbd, rfl⟩ | ⟨hbd2, rfl⟩
      · rw [vmfl_to_tail psv out h6 h8 hch hcd]
        simp only [hbd, Bool.false_eq_true, if_false]
      · rw [vmfl_to_tail psv out h6 h8 hch hcd]
        simp only [strSW_build_date hbd2, hbd2, if_true]
    constructor
    · intro h3 hlp
      rw [hrew]
      exact parse_tail_llvm_err psv out _ _ _ _ idx v c (by omega) hhost h2 hrel hsv hchan h3 hlp
    · intro h3
      rw [hrew]
      exact ⟨_, parse_tail_llvm_absent psv out _ _ _ _ idx v c (by omega) hhost h2 hrel
        hsv hchan h3, rfl⟩

/-- Witness for C6: a 7-line banner whose seventh line lacks the
`LLVM version: ` prefix fails, and the matching 6-line banner succeeds with
no backend version. -/
theorem C6_witness :
    (version_meta_for_lines stableSemverStub
      ["rustc 1.0.0", "binary: rustc", "commit-hash: unknown",
       "commit-date: unknown", "host: h", "release: 1.0.0", "oops"] =
      .error (.err .UnexpectedVersionFormat)) ∧
    (∃ m, version_meta_for_lines stableSemverStub
      ["rustc 1.0.0", "binary: rustc", "commit-hash: unknown",
       "commit-date: unknown", "host: h", "release: 1.0.0"] = .ok m ∧
      m.llvm_version = none) :=
  ⟨(C6_llvm_line.2 stableSemverStub
      ["rustc 1.0.0", "binary: rustc", "commit-hash: unknown",
       "commit-date: unknown", "host: h", "release: 1.0.0", "oops"]
      4 ⟨1, 0, 0, []⟩ .Stable (by decide) (by decide) (by decide) (by decide)
      (Or.inl ⟨by decide, rfl⟩) (by decide) (by decide) (by decide) (by decide)
      (by decide)).1 (by decide) (by decide),
   (C6_llvm_line.2 stableSemverStub
      ["rustc 1.0.0", "binary: rustc", "commit-hash: unknown",
       "commit-date: unknown", "host: h", "release: 1.0.0"]
      4 ⟨1, 0, 0, []⟩ .Stable (by decide) (by decide) (by decide) (by decide)
      (Or.inl ⟨by decide, rfl⟩) (by decide) (by decide) (by decide) (by decide)
      (by decide)).2 (by decide)⟩

/-- C9: for an 8-line input whose line 4 does not begin with `build-date`,
line index 7 is never examined: its content never affects the result. -/
theorem C9_line7_never_read (psv : String → Option Version) (l0 l1 l2 l3 l4 l5 l6 l7 l7' : String)
    (hbd : strSW l4 "build-date" = false) :
    version_meta_for_lines psv [l0, l1, l2, l3, l4, l5, l6, l7] =
    version_meta_for_lines psv [l0, l1, l2, l3, l4, l5, l6, l7'] := by
  simp [version_meta_for_lines, parse_tail, line_at, bindE_ok, bindE_error, bindE_assoc, hbd]

/-- Witness for C9: junk on line 7 of a concrete banner leaves the parse
equal to the same banner with an empty line 7, and the parse succeeds. -/
theorem C9_witness :
    (version_meta_for_lines stableSemverStub
      ["rustc 1.0.0", "binary: rustc", "commit-hash: unknown",
       "commit-date: unknown", "host: h", "release: 1.0.0",
       "LLVM version: 11.0", "@@ arbitrary junk @@"] =
     version_meta_for_lines stableSemverStub
      ["rustc 1.0.0", "binary: rustc", "commit-hash: unknown",
       "commit-date: unknown", "host: h", "release: 1.0.0",
       "LLVM version: 11.0", ""]) ∧
    version_meta_for_lines stableSemverStub
      ["rustc 1.0.0", "binary: rustc", "commit-hash: unknown",
       "commit-date: unknown", "host: h", "release: 1.0.0",
       "LLVM version: 11.0", "@@ arbitrary junk @@"] =
    .ok ⟨⟨1, 0, 0, []⟩, none, none, none, .Stable, "h", "rustc 1.0.0", some ⟨11, 0⟩⟩ :=
  ⟨C9_line7_never_read stableSemverStub "rustc 1.0.0" "binary: rustc" "commit-hash: unknown"
      "commit-date: unknown" "host: h" "release: 1.0.0" "LLVM version: 11.0"
      "@@ arbitrary junk @@" "" (by decide),
   by decide⟩

/-- C7: the derived comparison on `LLVMVersion` is lexicographic on
(major, minor); in particular version 3.9 precedes 4.0. -/
theorem C7_llvm_order :
    (∀ a b : LLVMVersion, LLVMVersion.ltd a b ↔
      (a.major < b.major ∨ (a.major = b.major ∧ a.minor < b.minor))) ∧
    LLVMVersion.ltd ⟨3, 9⟩ ⟨4, 0⟩ := by
  refine ⟨?_, ?_⟩
  · intro a b
    unfold LLVMVersion.ltd LLVMVersion.cmp
    rcases Nat.lt_trichotomy a.major b.major with h | h | h
    · have : compare a.major b.major = .lt := Nat.compare_eq_lt.mpr h
      simp [this, Ordering.then, h]
    · have hc : compare a.major b.major = .eq := Nat.compare_eq_eq.mpr h
      simp only [hc, Ordering.then]
      constructor
      · intro hlt
        exact Or.inr ⟨h, Nat.compare_eq_lt.mp hlt⟩
      · rintro (hlt | ⟨_, hlt⟩)
        · omega
        · exact Nat.compare_eq_lt.mpr hlt
    · have : compare a.major b.major = .gt := Nat.compare_eq_gt.mpr h
      simp only [this, Ordering.then]
      constructor
      · intro hh; cases hh
      · rintro (hlt | ⟨heq, _⟩) <;> omega
  · show LLVMVersion.cmp ⟨3, 9⟩ ⟨4, 0⟩ = .lt
    decide

/-- C10: a component passing the grammar checks (non-empty, no leading zero,
all ASCII digits) whose value exceeds `u64::MAX` still fails with
`UnexpectedVersionFormat`, because the `u64` conversion overflows. -/
theorem C10_u64_overflow (c : String) (h1 : c.data ≠ []) (h2 : c.data.head? ≠ some '0')
    (h3 : ∀ ch ∈ c.data, ch.isDigit) (h4 : u64Max < componentVal c) :
    parse_part c = .error .UnexpectedVersionFormat := by
  rw [parse_part_eq]
  have : decide (componentVal c ≤ u64Max) = false := by simp; omega
  simp [this]

/-- Witness for C10 at the concrete component 2^64. -/
theorem C10_witness :
    parse_part "18446744073709551616" = .error .UnexpectedVersionFormat :=
  C10_u64_overflow "18446744073709551616" (by decide) (by decide) (by decide) (by decide)

/-- C4: any input with fewer than 6 or more than 8 lines fails with
`UnexpectedVersionFormat`, and the line-count gate alone rejects no 6-, 7-
or 8-line input: inputs of each of those lengths can parse successfully. -/
theorem C4_line_count :
    (∀ psv out, out.length < 6 ∨ 8 < out.length →
      version_meta_for_lines psv out = .error (.err .UnexpectedVersionFormat)) ∧
    (∀ n, n = 6 ∨ n = 7 ∨ n = 8 → ∃ psv out m, out.length = n ∧
      version_meta_for_lines psv out = .ok m) := by
  constructor
  · intro psv out h
    unfold version_meta_for_lines
    rw [if_pos]
    simp only [Bool.not_eq_true', Bool.and_eq_false_iff, decide_eq_false_iff_not]
    omega
  · intro n hn
    rcases hn with h | h | h <;> subst h
    · exact ⟨stableSemverStub,
        ["a", "b", "commit-hash: unknown", "commit-date: unknown",
         "host: h", "release: 1.0.0"],
        ⟨⟨1, 0, 0, []⟩, none, none, none, .Stable, "h", "a", none⟩,
        by decide, by decide⟩
    · exact ⟨stableSemverStub,
        ["a", "b", "commit-hash: unknown", "commit-date: unknown",
         "host: h", "release: 1.0.0", "LLVM version: 11.0"],
        ⟨⟨1, 0, 0, []⟩, none, none, none, .Stable, "h", "a", some ⟨11, 0⟩⟩,
        by decide, by decide⟩
    · exact ⟨stableSemverStub,
        ["a", "b", "commit-hash: unknown", "commit-date: unknown",
         "build-date: unknown", "host: h", "release: 1.0.0",
         "LLVM version: 11.0"],
        ⟨⟨1, 0, 0, []⟩, none, none, none, .Stable, "h", "a", some ⟨11, 0⟩⟩,
        by decide, by decide⟩

/-- Witness for C7. -/
theorem C7_witness : LLVMVersion.ltd ⟨3, 9⟩ ⟨4, 0⟩ := C7_llvm_order.2

/-- Witness for C4 at a concrete 9-line input. -/
theorem C4_witness :
    version_meta_for_lines stableSemverStub
      ["1", "2", "3", "4", "5", "6", "7", "8", "9"] =
    .error (.err .UnexpectedVersionFormat) :=
  C4_line_count.1 stableSemverStub ["1", "2", "3", "4", "5", "6", "7", "8", "9"]
    (Or.inr (by decide))

end RustcVersion
